import Mathlib

/-!
Verification of the design-patterns demonstration program (`src/main.py`)
against its natural-language specification.

Each Python class is shallowly embedded: mutable objects become immutable
Lean structures with explicit state passing, Python `dict` becomes an
insertion-ordered association list, `print` side effects become explicit
ordered logs of emitted lines, and exceptions become `Except` / explicit
error components.
-/

set_option autoImplicit false

namespace PatternsDemo

/-! ### Python dict (insertion-ordered association list)

`d[key] = value` overwrites in place, keeping the key's position, or appends
a fresh key at the end; `d.get(key)` returns the value or `None`. -/

def dictSet : List (String × String) → String → String → List (String × String)
  | [], k, v => [(k, v)]
  | (k', v') :: rest, k, v =>
    if k' = k then (k, v) :: rest else (k', v') :: dictSet rest k v

def dictGet : List (String × String) → String → Option String
  | [], _ => none
  | (k', v') :: rest, k => if k' = k then some v' else dictGet rest k

theorem dictGet_dictSet_self (d : List (String × String)) (k v : String) :
    dictGet (dictSet d k v) k = some v := by
  induction d with
  | nil => simp [dictSet, dictGet]
  | cons p rest ih =>
    obtain ⟨k', v'⟩ := p
    by_cases h : k' = k <;> simp [dictSet, dictGet, h, ih]

theorem dictGet_dictSet_ne (d : List (String × String)) (k k' v : String)
    (h : k ≠ k') : dictGet (dictSet d k v) k' = dictGet d k' := by
  induction d with
  | nil => simp [dictSet, dictGet, h]
  | cons p rest ih =>
    obtain ⟨k₀, v₀⟩ := p
    by_cases h₀ : k₀ = k
    · subst h₀
      simp [dictSet, dictGet, h]
    · simp [dictSet, dictGet, h₀, ih]

/-! ### Singleton `Configuration`

`Configuration.__new__` allocates the single instance lazily: on the first
construction it stores the fresh instance in the class attribute `_instance`
and resets the class attribute `_settings` to an empty dict; every later
construction returns the stored instance unchanged.  Instances are modelled
by allocation identifiers (`Nat`); the class attributes are the process-wide
`ConfigState`.  `self._settings` inside `set_setting` / `get_setting`
resolves to the class attribute (no instance attribute named `_settings` is
ever assigned), so both methods act on the shared dict whatever reference
`self` they are called on. -/

structure ConfigState where
  _instance : Option Nat
  _settings : List (String × String)
  nextId : Nat
  deriving DecidableEq

def initConfigState : ConfigState := ⟨none, [], 0⟩

namespace Configuration

/-- `Configuration()`, i.e. `Configuration.__new__`: returns the reference
obtained and the updated class-attribute state. -/
def new (s : ConfigState) : Nat × ConfigState :=
  match s._instance with
  | none => (s.nextId, ⟨some s.nextId, [], s.nextId + 1⟩)
  | some i => (i, s)

/-- `Configuration.set_setting(self, key, value)`; `self` is the reference the
method is called through (unused: `self._settings` resolves to the class
attribute). -/
def set_setting (_self : Nat) (s : ConfigState) (key value : String) : ConfigState :=
  { s with _settings := dictSet s._settings key value }

/-- `Configuration.get_setting(self, key)`: `self._settings.get(key)`. -/
def get_setting (_self : Nat) (s : ConfigState) (key : String) : Option String :=
  dictGet s._settings key

end Configuration

/-- A step of a client program against the registry: a construction
`Configuration()` or a call `ref.set_setting(key, value)`. -/
inductive ConfigOp
  | construct
  | callSet (ref : Nat) (key value : String)
  deriving DecidableEq

/-- Runs a sequence of registry operations from a state; returns the final
class-attribute state and the references returned by the constructions,
in order. -/
def runOps : ConfigState → List ConfigOp → ConfigState × List Nat
  | s, [] => (s, [])
  | s, ConfigOp.construct :: ops =>
    let r := Configuration.new s
    let rest := runOps r.2 ops
    (rest.1, r.1 :: rest.2)
  | s, ConfigOp.callSet ref k v :: ops =>
    runOps (Configuration.set_setting ref s k v) ops

theorem runOps_pinned (ops : List ConfigOp) (s : ConfigState) (i : Nat)
    (h : s._instance = some i) : ∀ r ∈ (runOps s ops).2, r = i := by
  induction ops generalizing s with
  | nil => simp [runOps]
  | cons op ops ih =>
    cases op with
    | construct =>
      simp only [runOps, Configuration.new, h, List.mem_cons]
      rintro r (rfl | hr)
      · rfl
      · exact ih s h r hr
    | callSet ref k v =>
      exact ih _ h

theorem runOps_single (ops : List ConfigOp) (s : ConfigState)
    (h : s._instance = none) :
    ∀ r₁ ∈ (runOps s ops).2, ∀ r₂ ∈ (runOps s ops).2, r₁ = r₂ := by
  induction ops generalizing s with
  | nil => simp [runOps]
  | cons op ops ih =>
    cases op with
    | construct =>
      simp only [runOps, Configuration.new, h, List.mem_cons]
      have hpin := runOps_pinned ops ⟨some s.nextId, [], s.nextId + 1⟩ s.nextId rfl
      rintro r₁ (rfl | h₁) r₂ (rfl | h₂)
      · rfl
      · exact (hpin r₂ h₂).symm
      · exact hpin r₁ h₁
      · exact (hpin r₁ h₁).trans (hpin r₂ h₂).symm
    | callSet ref k v =>
      exact ih _ h

/-- Whether an operation stores a value under key `k`. -/
def ConfigOp.setsKey : ConfigOp → String → Bool
  | .construct, _ => false
  | .callSet _ key _, k => key = k

theorem runOps_get_none (ops : List ConfigOp) (s : ConfigState) (ref : Nat)
    (k : String) (hs : dictGet s._settings k = none)
    (hnever : ∀ op ∈ ops, op.setsKey k = false) :
    Configuration.get_setting ref (runOps s ops).1 k = none := by
  induction ops generalizing s with
  | nil => exact hs
  | cons op ops ih =>
    cases op with
    | construct =>
      have hrest : ∀ op ∈ ops, op.setsKey k = false :=
        fun op hop => hnever op (List.mem_cons_of_mem _ hop)
      have hset : dictGet (Configuration.new s).2._settings k = none := by
        cases hinst : s._instance with
        | none => simp [Configuration.new, hinst, dictGet]
        | some i => rw [Configuration.new, hinst]; exact hs
      exact ih _ hset hrest
    | callSet ref' key v =>
      have hkey : key ≠ k := by
        have := hnever _ (List.mem_cons_self _ _)
        simpa [ConfigOp.setsKey] using this
      refine ih _ ?_ fun op hop => hnever op (List.mem_cons_of_mem _ hop)
      simpa [Configuration.set_setting, dictGet_dictSet_ne _ _ _ _ hkey] using hs

/-! ### Factory Method: `DocumentHandler` and `HandlerFactory`

The two concrete handlers carry no state, so each handler object is just its
variant.  `content.lower()` is modelled by Lean's `String.toLower` (the
ASCII case mapping; the demo only ever processes ASCII text). -/

inductive DocumentHandler
  | textHandler
  | pdfHandler
  deriving DecidableEq

/-- `TextHandler.process` returns `content.lower()`;
`PDFHandler.process` returns `f"PDF Content: {content}"`. -/
def DocumentHandler.process : DocumentHandler → String → String
  | .textHandler, content => content.toLower
  | .pdfHandler, content => "PDF Content: " ++ content

inductive HandlerFactory
  | textHandlerFactory
  | pdfHandlerFactory
  deriving DecidableEq

/-- `TextHandlerFactory.create_handler` returns `TextHandler()`;
`PDFHandlerFactory.create_handler` returns `PDFHandler()`. -/
def HandlerFactory.create_handler : HandlerFactory → DocumentHandler
  | .textHandlerFactory => .textHandler
  | .pdfHandlerFactory => .pdfHandler

/-! ### Observer: `Subject` / `Document`

A document holds a content string and the ordered observer list (`Subject`
provides the list, `Document` adds `_content`, class default `""`).
Observers are values of an arbitrary type `α` compared by decidable equality
(Python compares observers by `==`, identity for plain objects).

An observer's `update(self)` behaviour is a parameter `upd`: given the
observer and the subject it receives, it either returns normally (with the
line its `print` emits, if any) or raises.  `notify` iterates over
`self._observers` in order, calling `update(self)` on each; a raise
propagates immediately, skipping the rest.  The notifications that actually
happened are returned as the list of (observer, subject it observed) pairs,
alongside the first raised exception, if any. -/

inductive UpdateOutcome
  | ok (output : String)
  | raises (e : String)
  deriving DecidableEq

/-- A `ValueError`-class Python error, as raised by `list.remove`. -/
inductive PyError
  | valueError (msg : String)
  deriving DecidableEq

structure Document (α : Type) where
  _content : String
  _observers : List α
  deriving DecidableEq

/-- `Document()`: `Subject.__init__` sets `_observers = []`; the class
attribute default for `_content` is `""`. -/
def Document.mk0 {α : Type} : Document α := ⟨"", []⟩

/-- `Subject.attach(observer)`: `self._observers.append(observer)`. -/
def Document.attach {α : Type} (d : Document α) (observer : α) : Document α :=
  { d with _observers := d._observers ++ [observer] }

/-- Python `list.remove(x)`: removes the first element equal to `x`, raises
`ValueError: list.remove(x): x not in list` when no element is equal. -/
def listRemove {α : Type} [DecidableEq α] : List α → α → Except PyError (List α)
  | [], _ => .error (.valueError "list.remove(x): x not in list")
  | a :: rest, x =>
    if a = x then .ok rest else (listRemove rest x).map (fun l => a :: l)

/-- `Subject.detach(observer)`: `self._observers.remove(observer)`. -/
def Document.detach {α : Type} [DecidableEq α] (d : Document α) (observer : α) :
    Except PyError (Document α) :=
  (listRemove d._observers observer).map (fun obs => { d with _observers := obs })

/-- The loop of `Subject.notify` over a remaining observer list: calls
`upd o d` on each in order; stops at the first raise. -/
def notifyFrom {α : Type} (upd : α → Document α → UpdateOutcome) (d : Document α) :
    List α → List (α × Document α) × Option String
  | [] => ([], none)
  | o :: rest =>
    match upd o d with
    | .raises e => ([(o, d)], some e)
    | .ok _ =>
      let next := notifyFrom upd d rest
      ((o, d) :: next.1, next.2)

/-- `Subject.notify()`: `for observer in self._observers: observer.update(self)`. -/
def Document.notify {α : Type} (upd : α → Document α → UpdateOutcome)
    (d : Document α) : List (α × Document α) × Option String :=
  notifyFrom upd d d._observers

/-- `Document.get_content()`. -/
def Document.get_content {α : Type} (d : Document α) : String := d._content

/-- `Document.set_content(content)`: overwrites `self._content`, then calls
`self.notify()`.  Returns the updated document, the notifications performed
and the propagated exception, if an observer raised. -/
def Document.set_content {α : Type} (upd : α → Document α → UpdateOutcome)
    (d : Document α) (content : String) :
    Document α × List (α × Document α) × Option String :=
  let d' := { d with _content := content }
  (d', Document.notify upd d')

/-- `Logger.update(subject)` prints one line built from
`subject.get_content()` and never raises. -/
def Logger.update {α : Type} (d : Document α) : UpdateOutcome :=
  .ok ("Logger: Document content updated to: " ++ d.get_content)

/-! ### Strategy: `ProcessingStrategy` and `TextProcessor` -/

inductive ProcessingStrategy
  | lowerCaseStrategy
  | upperCaseStrategy
  deriving DecidableEq

/-- `LowerCaseStrategy.process` returns `content.lower()`;
`UpperCaseStrategy.process` returns `content.upper()`. -/
def ProcessingStrategy.process : ProcessingStrategy → String → String
  | .lowerCaseStrategy, content => content.toLower
  | .upperCaseStrategy, content => content.toUpper

structure TextProcessor where
  _strategy : ProcessingStrategy
  deriving DecidableEq

/-- `TextProcessor.set_strategy(strategy)`. -/
def TextProcessor.set_strategy (p : TextProcessor) (strategy : ProcessingStrategy) :
    TextProcessor :=
  { p with _strategy := strategy }

/-- `TextProcessor.execute(content)`: `self._strategy.process(content)`. -/
def TextProcessor.execute (p : TextProcessor) (content : String) : String :=
  p._strategy.process content

/-! ### Decorator: `Component` chain

The chain is finite and acyclic (each decorator owns exactly one wrapped
component), so a component is a tree value.  `operation()` returns the
string together with the ordered log of lines printed while producing it. -/

inductive Component
  | concreteComponent (content : String)
  | spellCheckDecorator (component : Component)
  | loggingDecorator (component : Component)
  deriving DecidableEq

/-- `operation()`: `ConcreteComponent` returns its `_content` and prints
nothing; `SpellCheckDecorator` wraps the inner result in `SpellChecked(...)`;
`LoggingDecorator` computes the inner result, prints `f"Logging: {result}"`,
and returns the result unchanged.  The second component is the ordered list
of lines printed during the call, all emitted before the call returns. -/
def Component.operation : Component → String × List String
  | .concreteComponent content => (content, [])
  | .spellCheckDecorator comp =>
    let inner := comp.operation
    ("SpellChecked(" ++ inner.1 ++ ")", inner.2)
  | .loggingDecorator comp =>
    let inner := comp.operation
    (inner.1, inner.2 ++ ["Logging: " ++ inner.1])

/-! ### Behaviour lemmas for notification and removal -/

theorem notifyFrom_ok {α : Type} (upd : α → Document α → UpdateOutcome)
    (d : Document α) (l : List α)
    (hok : ∀ x ∈ l, ∃ out, upd x d = UpdateOutcome.ok out) :
    notifyFrom upd d l = (l.map (fun x => (x, d)), none) := by
  induction l with
  | nil => rfl
  | cons o rest ih =>
    obtain ⟨out, ho⟩ := hok o (List.mem_cons_self _ _)
    simp [notifyFrom, ho, ih fun x hx => hok x (List.mem_cons_of_mem _ hx)]

theorem notifyFrom_raises {α : Type} (upd : α → Document α → UpdateOutcome)
    (d : Document α) (pre post : List α) (b : α) (e : String)
    (hpre : ∀ x ∈ pre, ∃ out, upd x d = UpdateOutcome.ok out)
    (hb : upd b d = UpdateOutcome.raises e) :
    notifyFrom upd d (pre ++ b :: post) =
      (pre.map (fun x => (x, d)) ++ [(b, d)], some e) := by
  induction pre with
  | nil => simp [notifyFrom, hb]
  | cons o rest ih =>
    obtain ⟨out, ho⟩ := hpre o (List.mem_cons_self _ _)
    simp [notifyFrom, ho, ih fun x hx => hpre x (List.mem_cons_of_mem _ hx)]

theorem listRemove_not_mem {α : Type} [DecidableEq α] (l : List α) (x : α)
    (h : x ∉ l) :
    listRemove l x = .error (.valueError "list.remove(x): x not in list") := by
  induction l with
  | nil => rfl
  | cons a rest ih =>
    have hax : a ≠ x := fun hax => h (hax ▸ List.mem_cons_self _ _)
    have hrest : x ∉ rest := fun hr => h (List.mem_cons_of_mem _ hr)
    simp [listRemove, hax, ih hrest, Except.map]

theorem listRemove_first {α : Type} [DecidableEq α] (pre post : List α) (x : α)
    (h : x ∉ pre) : listRemove (pre ++ x :: post) x = .ok (pre ++ post) := by
  induction pre with
  | nil => simp [listRemove]
  | cons a rest ih =>
    have hax : a ≠ x := fun hax => h (hax ▸ List.mem_cons_self _ _)
    have hrest : x ∉ rest := fun hr => h (List.mem_cons_of_mem _ hr)
    simp [listRemove, hax, ih hrest, Except.map]

/-! ### Claim theorems -/

/-- C1: for every sequence of registry operations starting from the fresh
process, any two calls to `Configuration()` return the same single instance;
and a value stored via `set_setting` through any reference is observed by
`get_setting` through any other reference. -/
theorem singleton_shared_instance_C1 (ops : List ConfigOp) (r₁ r₂ : Nat)
    (h₁ : r₁ ∈ (runOps initConfigState ops).2)
    (h₂ : r₂ ∈ (runOps initConfigState ops).2) :
    r₁ = r₂ ∧
    ∀ (s : ConfigState) (refA refB : Nat) (k v : String),
      Configuration.get_setting refB (Configuration.set_setting refA s k v) k
        = some v :=
  ⟨runOps_single ops initConfigState rfl r₁ h₁ r₂ h₂,
   fun s _ _ k v => dictGet_dictSet_self s._settings k v⟩

theorem singleton_shared_instance_C1_witness :
    (0 : Nat) ∈ (runOps initConfigState [ConfigOp.construct, ConfigOp.construct]).2 ∧
    ((0 : Nat) = 0 ∧
      ∀ (s : ConfigState) (refA refB : Nat) (k v : String),
        Configuration.get_setting refB (Configuration.set_setting refA s k v) k
          = some v) :=
  ⟨by decide,
   singleton_shared_instance_C1 [ConfigOp.construct, ConfigOp.construct] 0 0
     (by decide) (by decide)⟩

/-- C2: `set_setting(key, value)` followed by `get_setting(key)` returns that
value, the most recent store overwriting any prior value under the key; and
for a key never stored in the run, `get_setting` returns the not-found
signal `none` (the embedding of `dict.get` is a total function, so no error
is raised). -/
theorem registry_set_get_C2 (s : ConfigState) (refA refB : Nat)
    (k v v' : String) (ops : List ConfigOp) (kAbsent : String)
    (hnever : ∀ op ∈ ops, op.setsKey kAbsent = false) :
    Configuration.get_setting refB (Configuration.set_setting refA s k v) k
      = some v ∧
    Configuration.get_setting refB
        (Configuration.set_setting refA
          (Configuration.set_setting refB s k v') k v) k = some v ∧
    Configuration.get_setting refA (runOps initConfigState ops).1 kAbsent
      = none :=
  ⟨dictGet_dictSet_self _ _ _,
   dictGet_dictSet_self _ _ _,
   runOps_get_none ops initConfigState refA kAbsent rfl hnever⟩

theorem registry_set_get_C2_witness :
    (∀ op ∈ [ConfigOp.construct, ConfigOp.callSet 0 "language" "EN"],
        op.setsKey "missing_key" = false) ∧
    (Configuration.get_setting 0
        (Configuration.set_setting 0 initConfigState "language" "EN") "language"
      = some "EN" ∧
     Configuration.get_setting 0
        (Configuration.set_setting 0
          (Configuration.set_setting 0 initConfigState "language" "FR")
          "language" "EN") "language" = some "EN" ∧
     Configuration.get_setting 0
        (runOps initConfigState
          [ConfigOp.construct, ConfigOp.callSet 0 "language" "EN"]).1
        "missing_key" = none) :=
  ⟨by decide,
   registry_set_get_C2 initConfigState 0 0 "language" "EN" "FR"
     [ConfigOp.construct, ConfigOp.callSet 0 "language" "EN"] "missing_key"
     (by decide)⟩

/-- C3: `attach` appends the observer at the end of the sequence (duplicates
permitted, insertion order kept); when no observer raises, `set_content`
overwrites the content and performs exactly one notification per attached
entry, in attachment order, each observing the document with the new
content, before returning with no propagated exception; attaching the same
observer twice to a fresh document and setting content once yields exactly
two notifications, both observing the new content. -/
theorem observer_attach_notify_C3 {α : Type}
    (upd : α → Document α → UpdateOutcome) (d : Document α) (o : α)
    (c : String)
    (hok : ∀ (x : α) (subj : Document α), ∃ out, upd x subj = .ok out) :
    (d.attach o)._observers = d._observers ++ [o] ∧
    (Document.set_content upd d c).1 = { d with _content := c } ∧
    (Document.set_content upd d c).2.1 =
      d._observers.map (fun x => (x, { d with _content := c })) ∧
    (Document.set_content upd d c).2.2 = none ∧
    (Document.set_content upd ((Document.mk0.attach o).attach o) c).2.1 =
      [(o, ⟨c, [o, o]⟩), (o, ⟨c, [o, o]⟩)] := by
  have hnot := fun (d' : Document α) (l : List α) =>
    notifyFrom_ok upd d' l (fun x _ => hok x d')
  refine ⟨rfl, rfl, ?_, ?_, ?_⟩
  · simpa [Document.set_content, Document.notify] using
      congrArg Prod.fst (hnot { d with _content := c } d._observers)
  · simpa [Document.set_content, Document.notify] using
      congrArg Prod.snd (hnot { d with _content := c } d._observers)
  · simpa [Document.set_content, Document.notify, Document.mk0,
      Document.attach] using
      congrArg Prod.fst (hnot ⟨c, [o, o]⟩ [o, o])

theorem observer_attach_notify_C3_witness :
    (∀ (x : Nat) (subj : Document Nat),
        ∃ out, (fun (_ : Nat) => Logger.update) x subj = .ok out) ∧
    (((⟨"old", [1, 2]⟩ : Document Nat).attach 3)._observers = [1, 2, 3] ∧
     (Document.set_content (fun (_ : Nat) => Logger.update)
        (⟨"old", [1, 2]⟩ : Document Nat) "X").1 = ⟨"X", [1, 2]⟩ ∧
     (Document.set_content (fun (_ : Nat) => Logger.update)
        (⟨"old", [1, 2]⟩ : Document Nat) "X").2.1 =
       [(1, ⟨"X", [1, 2]⟩), (2, ⟨"X", [1, 2]⟩)] ∧
     (Document.set_content (fun (_ : Nat) => Logger.update)
        (⟨"old", [1, 2]⟩ : Document Nat) "X").2.2 = none ∧
     (Document.set_content (fun (_ : Nat) => Logger.update)
        (((Document.mk0 : Document Nat).attach 3).attach 3) "X").2.1 =
       [(3, ⟨"X", [3, 3]⟩), (3, ⟨"X", [3, 3]⟩)]) :=
  ⟨fun _ subj => ⟨"Logger: Document content updated to: " ++ subj.get_content,
     rfl⟩,
   observer_attach_notify_C3 (fun _ => Logger.update) ⟨"old", [1, 2]⟩ 3 "X"
     (fun _ subj =>
       ⟨"Logger: Document content updated to: " ++ subj.get_content, rfl⟩)⟩

/-- C4: `detach` removes the first observer equal to the argument; detaching
an observer that is not attached raises a `ValueError`-class "not found"
failure instead of succeeding silently. -/
theorem observer_detach_C4 {α : Type} [DecidableEq α] (d : Document α)
    (o : α) (pre post : List α) :
    (d._observers = pre ++ o :: post → o ∉ pre →
      d.detach o = .ok { d with _observers := pre ++ post }) ∧
    (o ∉ d._observers →
      d.detach o = .error (.valueError "list.remove(x): x not in list")) := by
  constructor
  · intro hobs hpre
    simp [Document.detach, hobs, listRemove_first pre post o hpre, Except.map]
  · intro habs
    simp [Document.detach, listRemove_not_mem _ _ habs, Except.map]

theorem observer_detach_C4_witness :
    (((⟨"", [5, 6, 5]⟩ : Document Nat)._observers = [] ++ 5 :: [6, 5]) ∧
      (5 : Nat) ∉ ([] : List Nat) ∧
      (⟨"", [5, 6, 5]⟩ : Document Nat).detach 5 = .ok ⟨"", [6, 5]⟩) ∧
    ((7 : Nat) ∉ [5, 6, 5] ∧
      (⟨"", [5, 6, 5]⟩ : Document Nat).detach 7 =
        .error (.valueError "list.remove(x): x not in list")) :=
  ⟨⟨rfl, by decide,
     (observer_detach_C4 ⟨"", [5, 6, 5]⟩ 5 [] [6, 5]).1 rfl (by decide)⟩,
   ⟨by decide,
     (observer_detach_C4 ⟨"", [5, 6, 5]⟩ 7 [] []).2 (by decide)⟩⟩

/-- C5: if, during `set_content`, the observers before position `b` succeed
and the observer `b` raises, the exception propagates synchronously to the
caller of `set_content`, the observers after `b` are not notified (only the
prefix up to and including `b` is), and the content remains overwritten with
the new value. -/
theorem observer_failure_C5 {α : Type} (upd : α → Document α → UpdateOutcome)
    (d : Document α) (c : String) (pre post : List α) (b : α) (e : String)
    (hobs : d._observers = pre ++ b :: post)
    (hpre : ∀ x ∈ pre, ∃ out, upd x { d with _content := c } = .ok out)
    (hb : upd b { d with _content := c } = .raises e) :
    Document.set_content upd d c =
      ({ d with _content := c },
       pre.map (fun x => (x, { d with _content := c }))
         ++ [(b, { d with _content := c })],
       some e) := by
  obtain ⟨dc, dobs⟩ := d
  change dobs = pre ++ b :: post at hobs
  subst hobs
  exact congrArg (fun z => ((⟨c, pre ++ b :: post⟩ : Document α), z))
    (notifyFrom_raises upd ⟨c, pre ++ b :: post⟩ pre post b e hpre hb)

theorem observer_failure_C5_witness :
    ((⟨"old", [1, 2, 3]⟩ : Document Nat)._observers = [1] ++ 2 :: [3] ∧
     (∀ x ∈ [1], ∃ out,
        (fun (o : Nat) (_ : Document Nat) =>
          if o = 2 then UpdateOutcome.raises "boom" else UpdateOutcome.ok "")
          x ⟨"X", [1, 2, 3]⟩ = .ok out) ∧
     (fun (o : Nat) (_ : Document Nat) =>
        if o = 2 then UpdateOutcome.raises "boom" else UpdateOutcome.ok "")
       2 ⟨"X", [1, 2, 3]⟩ = .raises "boom") ∧
    Document.set_content
      (fun (o : Nat) (_ : Document Nat) =>
        if o = 2 then UpdateOutcome.raises "boom" else UpdateOutcome.ok "")
      (⟨"old", [1, 2, 3]⟩ : Document Nat) "X" =
      (⟨"X", [1, 2, 3]⟩, [(1, ⟨"X", [1, 2, 3]⟩), (2, ⟨"X", [1, 2, 3]⟩)],
       some "boom") :=
  ⟨⟨rfl, fun x hx => by rw [List.mem_singleton.mp hx]; exact ⟨"", rfl⟩, rfl⟩,
   observer_failure_C5
     (fun (o : Nat) (_ : Document Nat) =>
       if o = 2 then UpdateOutcome.raises "boom" else UpdateOutcome.ok "")
     ⟨"old", [1, 2, 3]⟩ "X" [1] [3] 2 "boom" rfl
     (fun x hx => by rw [List.mem_singleton.mp hx]; exact ⟨"", rfl⟩) rfl⟩

/-- C6: `TextHandlerFactory.create_handler()` returns a `TextHandler` and
`PDFHandlerFactory.create_handler()` a `PDFHandler`; the former's `process`
lower-cases its input and the latter's prepends `"PDF Content: "`, both as
pure total functions, including on the empty string. -/
theorem factory_handlers_C6 (s : String) :
    HandlerFactory.create_handler .textHandlerFactory = .textHandler ∧
    HandlerFactory.create_handler .pdfHandlerFactory = .pdfHandler ∧
    DocumentHandler.process (HandlerFactory.create_handler .textHandlerFactory) s
      = s.toLower ∧
    DocumentHandler.process (HandlerFactory.create_handler .pdfHandlerFactory) s
      = "PDF Content: " ++ s ∧
    DocumentHandler.process .pdfHandler "Hello World!"
      = "PDF Content: Hello World!" ∧
    DocumentHandler.process .textHandler "Hello World!" = "hello world!" ∧
    DocumentHandler.process .textHandler "" = "" ∧
    DocumentHandler.process .pdfHandler "" = "PDF Content: " :=
  ⟨rfl, rfl, rfl, rfl, by decide,
   by show "Hello World!".toLower = "hello world!"
      rw [String.toLower, String.map_eq]; decide,
   by show "".toLower = ""
      rw [String.toLower, String.map_eq]; decide,
   by decide⟩

/-- C7: `LowerCaseStrategy.process` lower-cases and `UpperCaseStrategy.process`
upper-cases every string, as pure total functions. -/
theorem strategies_C7 (s : String) :
    ProcessingStrategy.process .lowerCaseStrategy s = s.toLower ∧
    ProcessingStrategy.process .upperCaseStrategy s = s.toUpper ∧
    ProcessingStrategy.process .lowerCaseStrategy "Hello World!"
      = "hello world!" ∧
    ProcessingStrategy.process .upperCaseStrategy "Hello World!"
      = "HELLO WORLD!" :=
  ⟨rfl, rfl,
   by show "Hello World!".toLower = "hello world!"
      rw [String.toLower, String.map_eq]; decide,
   by show "Hello World!".toUpper = "HELLO WORLD!"
      rw [String.toUpper, String.map_eq]; decide⟩

/-- C8: `execute` returns exactly the active strategy's `process` result,
verbatim; after `set_strategy(s)` every subsequent `execute` delegates to
`s`, and the swap replaces only the strategy reference — in this pure-value
embedding, results already returned are values and cannot be mutated by the
swap. -/
theorem processor_delegates_C8 (p : TextProcessor) (s : ProcessingStrategy)
    (c c' : String) :
    p.execute c = p._strategy.process c ∧
    (p.set_strategy s).execute c' = s.process c' ∧
    p.set_strategy s = ⟨s⟩ :=
  ⟨rfl, rfl, rfl⟩

/-- C9: `ConcreteComponent(c).operation()` returns `c` with no emission;
`SpellCheckDecorator(w).operation()` returns `"SpellChecked(" ++ r ++ ")"`
where `r` is the wrapped result, emitting nothing of its own;
`LoggingDecorator(w).operation()` returns the wrapped result unchanged after
emitting the line `"Logging: " ++ r`; and the chain
`SpellCheckDecorator(LoggingDecorator(ConcreteComponent("abc")))` returns
`"SpellChecked(abc)"` with exactly one emission, `"Logging: abc"`, produced
before the call returns. -/
theorem decorator_chain_C9 (c : String) (w : Component) :
    (Component.concreteComponent c).operation = (c, []) ∧
    (Component.spellCheckDecorator w).operation =
      ("SpellChecked(" ++ w.operation.1 ++ ")", w.operation.2) ∧
    (Component.loggingDecorator w).operation =
      (w.operation.1, w.operation.2 ++ ["Logging: " ++ w.operation.1]) ∧
    (Component.spellCheckDecorator (Component.loggingDecorator
        (Component.concreteComponent "abc"))).operation =
      ("SpellChecked(abc)", ["Logging: abc"]) :=
  ⟨rfl, rfl, rfl, by decide⟩

/-- C10: `set_content` performs no change detection: even when the new
content equals the current content, every attached observer is notified, and
setting the same content twice in a row produces two full rounds of
notifications. -/
theorem no_change_detection_C10 {α : Type}
    (upd : α → Document α → UpdateOutcome) (d : Document α) (c : String)
    (heq : d.get_content = c)
    (hok : ∀ (x : α) (subj : Document α), ∃ out, upd x subj = .ok out) :
    (Document.set_content upd d c).2.1 =
      d._observers.map (fun x => (x, { d with _content := c })) ∧
    (Document.set_content upd (Document.set_content upd d c).1 c).2.1 =
      d._observers.map (fun x => (x, { d with _content := c })) := by
  have hnot := fun (d' : Document α) (l : List α) =>
    notifyFrom_ok upd d' l (fun x _ => hok x d')
  constructor
  · simpa [Document.set_content, Document.notify] using
      congrArg Prod.fst (hnot { d with _content := c } d._observers)
  · simpa [Document.set_content, Document.notify] using
      congrArg Prod.fst (hnot { d with _content := c } d._observers)

theorem no_change_detection_C10_witness :
    ((⟨"X", [1, 2]⟩ : Document Nat).get_content = "X" ∧
     ∀ (x : Nat) (subj : Document Nat),
        ∃ out, (fun (_ : Nat) => Logger.update) x subj = .ok out) ∧
    ((Document.set_content (fun (_ : Nat) => Logger.update)
        (⟨"X", [1, 2]⟩ : Document Nat) "X").2.1 =
       [(1, ⟨"X", [1, 2]⟩), (2, ⟨"X", [1, 2]⟩)] ∧
     (Document.set_content (fun (_ : Nat) => Logger.update)
        (Document.set_content (fun (_ : Nat) => Logger.update)
          (⟨"X", [1, 2]⟩ : Document Nat) "X").1 "X").2.1 =
       [(1, ⟨"X", [1, 2]⟩), (2, ⟨"X", [1, 2]⟩)]) :=
  ⟨⟨rfl, fun _ subj =>
     ⟨"Logger: Document content updated to: " ++ subj.get_content, rfl⟩⟩,
   no_change_detection_C10 (fun _ => Logger.update) ⟨"X", [1, 2]⟩ "X" rfl
     (fun _ subj =>
       ⟨"Logger: Document content updated to: " ++ subj.get_content, rfl⟩)⟩

end PatternsDemo
